import Mathlib

/-!
Verification of the backend health-tracking and selection subsystem of the
go-proxy HTTP reverse proxy (src/main.go).

The embedding below follows the primary program in src/main.go: the `Backend`
and `Config` records, the probe body of `healthCheck` (lines 186-236), the
selector `getHealthyBackend` (lines 238-252), the request handler
`proxyHandler` (lines 254-345) and the DNS cache `resolveHostWithTimeout`
(lines 156-184).  Machine int32 health values are modelled as `Int` (the
program only ever stores 0 or 1).  Randomness (`rand.Intn n`) is modelled by
an explicit draw `r : Nat` with `r < n`; network effects (probe outcomes, DNS
lookups, URL parses, transport failures) are modelled as explicit inputs, so
every function here is a pure function of the program state and the
environment's answers.
-/

namespace GoProxy

/-- One configured origin, from `type Backend` in src/main.go: a URL, the
hostname and port extracted from it at load time, and the health flag
(an `int32`, 0 for down, 1 for up, written atomically). -/
structure Backend where
  url : String
  host : String
  port : String
  health : Int
deriving DecidableEq, Repr

/-- Process-wide settings, from `type Config` in src/main.go.  Durations are
seconds; a zero duration means "unset" and the handler substitutes a fixed
default (src/main.go lines 302-325). -/
structure Config where
  port : Nat
  interval : Nat
  healthPath : String
  bearerToken : String
  backends : List Backend
  dialTimeout : Nat
  dialKeepAlive : Nat
  tlsHandshakeTimeout : Nat
  responseHeaderTimeout : Nat
  expectContinueTimeout : Nat
deriving DecidableEq, Repr

/-- The indices of the backends whose health flag reads 1, in backend order:
the loop of `getHealthyBackend` (src/main.go lines 240-244), which appends
`&config.Backends[i]` for each `i` with `Health == 1`. -/
def healthyIndices (bs : List Backend) : List Nat :=
  (List.range bs.length).filter fun i => (bs.get? i).map Backend.health == some 1

/-- The selector `getHealthyBackend` (src/main.go lines 238-252), returning
the index of the chosen backend (the Go code returns the pointer
`&config.Backends[i]`; index and pointer identify the same record).  The
random draw `rand.Intn(len(healthyBackends))` is modelled by the input `r`;
`rand.Intn n` always returns a value `< n`, so for a faithful draw
`r % length` equals `r`. -/
def getHealthyBackendIdx (bs : List Backend) (r : Nat) : Except String Nat :=
  let hb := healthyIndices bs
  if hb.length = 0 then .error "no healthy backends available"
  else .ok (hb.getD (r % hb.length) 0)

/-- Outcome of one health-probe attempt as the probe goroutine observes it:
`http.NewRequest` may fail, `client.Do` may fail at the transport level, or a
response with some status code arrives (src/main.go lines 194-231). -/
inductive ProbeOutcome
  | reqCreateError
  | transportError
  | response (statusCode : Nat)
deriving DecidableEq, Repr

/-- The health value the probe goroutine stores for its backend (src/main.go
lines 194-231): request-creation failure or transport failure store 0;
a response stores 1 exactly when the status code is `http.StatusOK` (200). -/
def probeResultHealth : ProbeOutcome → Int
  | .reqCreateError => 0
  | .transportError => 0
  | .response code => if code = 200 then 1 else 0

/-- One round of the health-check loop body (src/main.go lines 188-233):
for every backend index `i` a probe goroutine runs and stores
`probeResultHealth` of its outcome into `config.Backends[i].Health`.
`outcomes` lists the environment's outcome for each backend's probe, in
backend order.  Every backend is probed: the loop over `config.Backends` has
no skip condition, so the new health vector is determined entirely by the
outcomes. -/
def healthCheckCycle (outcomes : List ProbeOutcome) (healths : List Int) : List Int :=
  List.zipWith (fun o _ => probeResultHealth o) outcomes healths

/-- The probe request built by the probe goroutine (src/main.go lines
190-209): target URL `backend.URL + config.Health`, and an `Authorization`
header set to `Bearer <token>` exactly when a bearer token is configured
(the request is freshly created, so it carries no other Authorization
value). -/
structure ProbeRequest where
  url : String
  auth : Option String
deriving DecidableEq, Repr

/-- Builds the probe request as src/main.go lines 190-209 do. -/
def buildProbeRequest (backendURL healthPath bearerToken : String) : ProbeRequest :=
  { url := backendURL ++ healthPath
    auth := if bearerToken = "" then none else some ("Bearer " ++ bearerToken) }

/-- The health value one probe task stores, as a function of the
environment's DNS answer for the backend's host and the probe outcome.
Translated from the probe goroutine body (src/main.go lines 189-232): the
goroutine builds the request from `backend.URL` directly and never calls
`resolveHostWithTimeout` (that function has no caller in the prober), so
`dnsResult` — the answer the DNS cache would give — does not influence the
stored health; only the probe outcome does. -/
def probeTask (dnsResult : Except String String) (outcome : ProbeOutcome) : Int :=
  probeResultHealth outcome

/-- The full `Backend` record after its probe completes at wall-clock time
`now`, translated from the probe goroutine (src/main.go lines 189-232): the
goroutine stores only the health flag via `atomic.StoreInt32`, and the
`Backend` record (src/main.go lines 23-28) has only the fields `URL`,
`Host`, `Port` and `Health` — no `lastSuccessAt` or `lastFailureAt` field —
so `now`, the instant a time-recording policy would store, appears nowhere
in the post-probe state. -/
def probeUpdateBackend (now : Nat) (b : Backend) (outcome : ProbeOutcome) : Backend :=
  { b with health := probeResultHealth outcome }

/-- The Authorization header of the outbound proxied request (src/main.go
lines 283-292): the wrapped director first runs the standard
single-host-reverse-proxy director, which rewrites only the target URL and
leaves the client's headers alone, and then, when a bearer token is
configured, `Set`s the Authorization header to `Bearer <token>`, overriding
whatever the client supplied. -/
def directorAuth (bearerToken : String) (clientAuth : Option String) : Option String :=
  if bearerToken = "" then clientAuth else some ("Bearer " ++ bearerToken)

/-- The client-visible result of one call to `proxyHandler`: either an error
response written directly by the handler (status code and body), or the
request was forwarded to backend `idx` carrying `outboundAuth` as its
Authorization header. -/
inductive HandlerResult
  | errorResp (status : Nat) (body : String)
  | forwarded (idx : Nat) (outboundAuth : Option String)
deriving DecidableEq, Repr

/-- The request handler `proxyHandler` (src/main.go lines 254-345), as a
function of the registry snapshot inside `cfg`, the random draw `r`, the
environment's answers (`urlParseOk i`: whether `url.Parse(backend.URL)`
succeeds for backend `i`; `transportOk`: whether the outbound call to the
chosen backend succeeds at the transport level) and the client's
Authorization header.  Returns the handler's result together with the list
of backends to which an outbound call was issued.  Control flow from the
source: selector error ⇒ 503 "Service Unavailable" and return (lines
260-268); URL parse error ⇒ 500 "Internal Server Error" and return (lines
270-278); transport failure during `proxy.ServeHTTP` ⇒ the installed
`ErrorHandler` writes 502 "Bad Gateway" (lines 294-300); otherwise the
request is forwarded once to the chosen backend with the director-rewritten
headers.  No branch tries a second backend. -/
def proxyHandler (cfg : Config) (r : Nat) (urlParseOk : Nat → Bool)
    (transportOk : Bool) (clientAuth : Option String) :
    HandlerResult × List Nat :=
  match getHealthyBackendIdx cfg.backends r with
  | .error _ => (.errorResp 503 "Service Unavailable", [])
  | .ok i =>
    if urlParseOk i then
      if transportOk then (.forwarded i (directorAuth cfg.bearerToken clientAuth), [i])
      else (.errorResp 502 "Bad Gateway", [i])
    else (.errorResp 500 "Internal Server Error", [])

/-- The DNS cache resolver `resolveHostWithTimeout` (src/main.go lines
156-184).  The cache is an association list (newest entry first, matching a
Go map whose assignments shadow); `lookupIP` is the environment's answer to
the one `resolver.LookupIP` call the function would make on a cache miss
(`none`: the lookup errors; `some l`: it returns the address list `l`).
Returns the result, the new cache, and whether a network lookup was issued.
Source control flow: cache hit ⇒ return the cached IP, no lookup; miss ⇒
lookup; lookup error or empty address list ⇒ error, cache unchanged;
otherwise the first address is stored and returned. -/
def resolveHostWithTimeout (dnsCache : List (String × String)) (host : String)
    (lookupIP : Option (List String)) :
    Except String String × List (String × String) × Bool :=
  match dnsCache.lookup host with
  | some ip => (.ok ip, dnsCache, false)
  | none =>
    match lookupIP with
    | none => (.error ("failed to resolve " ++ host), dnsCache, true)
    | some [] => (.error ("no IPs found for " ++ host), dnsCache, true)
    | some (ip :: _) => (.ok ip, (host, ip) :: dnsCache, true)

/-- Number of network lookups issued by a sequence of sequential
`resolveHostWithTimeout` calls for the same host, threading the cache;
`oracle` lists the environment's answer for each call that reaches the
network. -/
def resolveSeqLookups (dnsCache : List (String × String)) (host : String) :
    List (Option (List String)) → Nat
  | [] => 0
  | l :: ls =>
    let step := resolveHostWithTimeout dnsCache host l
    (if step.2.2 then 1 else 0) + resolveSeqLookups step.2.1 host ls

/-- The probe HTTP client timeout in seconds: `httpTimeout = 5 * time.Second`
(src/main.go line 56), passed as `http.Client{Timeout: httpTimeout}`, so a
probe takes at most 5 seconds. -/
def httpTimeout : Nat := 5

/-- The default probe interval in seconds, applied by `loadConfig` when the
configuration leaves it unset: `config.Interval = 3` (src/main.go line 134). -/
def defaultInterval : Nat := 3

/-- The failure-backoff window in seconds of the backoff policy the spec
describes: `failureWindow = 30 * time.Second`, the constant of the earlier
variant of this program bundled in src/main.go (second document, line 46 of
that document).  The primary program defines no such constant. -/
def failureWindow : Nat := 30

/-- Dispatch time (seconds from prober start) of probe round `n`.  The
health-check loop (src/main.go lines 186-236) dispatches all of a round's
probe goroutines and then immediately sleeps `interval` seconds — there is no
join or wait on the dispatched goroutines — so round `n+1` is dispatched
exactly `interval` seconds after round `n`, whatever the probes are still
doing. -/
def cycleStart (interval n : Nat) : Nat := interval * n

/-- Completion time of a probe of round `n` whose network exchange takes `d`
seconds: the probe starts at the round's dispatch and its client gives up
after `httpTimeout` seconds, so it ends `min d httpTimeout` seconds after
dispatch. -/
def probeFinish (interval n d : Nat) : Nat := cycleStart interval n + min d httpTimeout

/-! ### Helper lemmas -/

theorem healthyIndices_nodup (bs : List Backend) : (healthyIndices bs).Nodup :=
  List.Nodup.filter _ (List.nodup_range bs.length)

theorem mem_healthyIndices (bs : List Backend) (i : Nat) :
    i ∈ healthyIndices bs ↔
      i < bs.length ∧ (bs.get? i).map Backend.health = some 1 := by
  unfold healthyIndices
  rw [List.mem_filter, List.mem_range]
  constructor
  · rintro ⟨h1, h2⟩
    exact ⟨h1, by simpa using h2⟩
  · rintro ⟨h1, h2⟩
    exact ⟨h1, by simpa using h2⟩

theorem healthyIndices_eq_nil_iff (bs : List Backend) :
    healthyIndices bs = [] ↔ ∀ b ∈ bs, b.health ≠ 1 := by
  constructor
  · intro h b hb hhealth
    obtain ⟨i, hi⟩ := List.mem_iff_get.mp hb
    have hmem : (i : Nat) ∈ healthyIndices bs := by
      rw [mem_healthyIndices]
      refine ⟨i.isLt, ?_⟩
      rw [List.get?_eq_get i.isLt, hi, Option.map_some', hhealth]
    rw [h] at hmem
    exact (List.not_mem_nil _ hmem)
  · intro h
    by_contra hne
    obtain ⟨i, hi⟩ := List.exists_mem_of_ne_nil _ hne
    rw [mem_healthyIndices] at hi
    obtain ⟨hlt, hmap⟩ := hi
    obtain ⟨b, hb, hbh⟩ := Option.map_eq_some'.mp hmap
    exact h b (List.get?_mem hb) hbh

theorem getHealthyBackendIdx_ok_iff (bs : List Backend) (r : Nat) (i : Nat) :
    getHealthyBackendIdx bs r = .ok i ↔
      (healthyIndices bs).length ≠ 0 ∧
        (healthyIndices bs).getD (r % (healthyIndices bs).length) 0 = i := by
  unfold getHealthyBackendIdx
  by_cases h : (healthyIndices bs).length = 0 <;> simp [h]

/-! ### Claims -/

/-- C1: the selector `getHealthyBackend` never returns a backend whose health
flag is false in the snapshot it read: every returned index carries health 1;
and the choice is uniform among the healthy backends: distinct random draws
below the healthy count select distinct backends (injectivity), and every
healthy backend is selected by some such draw (surjectivity), so each of the
equally likely draws of `rand.Intn` selects each healthy backend exactly
once. -/
theorem getHealthyBackend_picks_healthy_uniformly (bs : List Backend) :
    (∀ r i, getHealthyBackendIdx bs r = .ok i →
        ∃ b, bs.get? i = some b ∧ b.health = 1) ∧
    (∀ r r', r < (healthyIndices bs).length → r' < (healthyIndices bs).length →
        getHealthyBackendIdx bs r = getHealthyBackendIdx bs r' → r = r') ∧
    (∀ j, j ∈ healthyIndices bs →
        ∃ r, r < (healthyIndices bs).length ∧ getHealthyBackendIdx bs r = .ok j) := by
  refine ⟨?_, ?_, ?_⟩
  · intro r i hok
    rw [getHealthyBackendIdx_ok_iff] at hok
    obtain ⟨hne, hget⟩ := hok
    have hlt : r % (healthyIndices bs).length < (healthyIndices bs).length :=
      Nat.mod_lt _ (Nat.pos_of_ne_zero hne)
    have hmem : i ∈ healthyIndices bs := by
      rw [← hget, List.getD_eq_get?, List.get?_eq_get hlt]
      exact List.get_mem _ _ _
    rw [mem_healthyIndices] at hmem
    obtain ⟨hilt, hmap⟩ := hmem
    obtain ⟨b, hb, hbh⟩ := Option.map_eq_some'.mp hmap
    exact ⟨b, hb, hbh⟩
  · intro r r' hr hr' heq
    have hne : (healthyIndices bs).length ≠ 0 := Nat.pos_iff_ne_zero.mp (Nat.lt_of_le_of_lt (Nat.zero_le r) hr)
    unfold getHealthyBackendIdx at heq
    simp only [hne, if_neg hne] at heq
    rw [Nat.mod_eq_of_lt hr, Nat.mod_eq_of_lt hr'] at heq
    have hgd : (healthyIndices bs).getD r 0 = (healthyIndices bs).getD r' 0 := by
      exact Except.ok.inj heq
    rw [List.getD_eq_get?, List.getD_eq_get?, List.get?_eq_get hr, List.get?_eq_get hr'] at hgd
    simp only [Option.getD_some] at hgd
    have := (healthyIndices_nodup bs).get_inj_iff.mp hgd
    exact congrArg Fin.val this
  · intro j hj
    obtain ⟨n, hn⟩ := List.mem_iff_get.mp hj
    refine ⟨n, n.isLt, ?_⟩
    rw [getHealthyBackendIdx_ok_iff]
    refine ⟨Nat.pos_iff_ne_zero.mp (Nat.lt_of_le_of_lt (Nat.zero_le _) n.isLt), ?_⟩
    rw [Nat.mod_eq_of_lt n.isLt, List.getD_eq_get?, List.get?_eq_get n.isLt]
    simpa using hn

/-- Witness for C1 at a concrete registry: backends `[unhealthy, healthy]`
and draw 0 select backend index 1, whose health is 1; the draw selecting
index 1 is unique; and every member of the healthy set is reached. -/
theorem getHealthyBackend_picks_healthy_uniformly_witness :
    (∃ b, ([⟨"http://a", "a", "80", 0⟩, ⟨"http://b", "b", "80", 1⟩] : List Backend).get? 1 =
        some b ∧ b.health = 1) ∧
    (∃ r, r < (healthyIndices [⟨"http://a", "a", "80", 0⟩, ⟨"http://b", "b", "80", 1⟩]).length ∧
        getHealthyBackendIdx [⟨"http://a", "a", "80", 0⟩, ⟨"http://b", "b", "80", 1⟩] r = .ok 1) := by
  constructor
  · exact (getHealthyBackend_picks_healthy_uniformly
      [⟨"http://a", "a", "80", 0⟩, ⟨"http://b", "b", "80", 1⟩]).1 0 1 (by rfl)
  · exact (getHealthyBackend_picks_healthy_uniformly
      [⟨"http://a", "a", "80", 0⟩, ⟨"http://b", "b", "80", 1⟩]).2.2 1 (by decide)

theorem healthCheckCycle_get? (outcomes : List ProbeOutcome) (healths : List Int)
    (i : Nat) (o : ProbeOutcome) (ho : outcomes.get? i = some o)
    (hi : i < healths.length) :
    (healthCheckCycle outcomes healths).get? i = some (probeResultHealth o) := by
  unfold healthCheckCycle
  rw [List.get?_zipWith', ho, List.get?_eq_get hi]
  rfl

/-- C2: for a request arriving while no backend's health flag is 1, the
selector fails with the no-healthy-backends error, and the handler writes
503 Service Unavailable and stops: no outbound call is attempted. -/
theorem proxyHandler_503_when_no_healthy (cfg : Config) (r : Nat)
    (urlParseOk : Nat → Bool) (transportOk : Bool) (clientAuth : Option String)
    (h : ∀ b ∈ cfg.backends, b.health ≠ 1) :
    getHealthyBackendIdx cfg.backends r = .error "no healthy backends available" ∧
    proxyHandler cfg r urlParseOk transportOk clientAuth =
      (.errorResp 503 "Service Unavailable", []) := by
  have hnil : healthyIndices cfg.backends = [] := (healthyIndices_eq_nil_iff _).mpr h
  have hsel : getHealthyBackendIdx cfg.backends r = .error "no healthy backends available" := by
    unfold getHealthyBackendIdx
    simp [hnil]
  refine ⟨hsel, ?_⟩
  unfold proxyHandler
  rw [hsel]

/-- A concrete configuration whose two backends are both unhealthy. -/
def cfgAllDown : Config :=
  ⟨8080, 3, "/health", "", [⟨"http://a", "a", "80", 0⟩, ⟨"http://b", "b", "80", 0⟩],
    0, 0, 0, 0, 0⟩

/-- Witness for C2: with both backends down, the handler answers 503 and
attempts no backend. -/
theorem proxyHandler_503_when_no_healthy_witness :
    proxyHandler cfgAllDown 0 (fun _ => true) true none =
      (.errorResp 503 "Service Unavailable", []) :=
  (proxyHandler_503_when_no_healthy cfgAllDown 0 (fun _ => true) true none
    (by decide)).2

/-- C6 counterexample: the claim that a 200 probe "records the success
time" and any other outcome "records the failure time" is false of the
code: the probe writes only the health flag, and the `Backend` record has
no timestamp field, so the post-probe state of a backend is identical
whether its failing probe completed at time 7 or at time 8 (nothing about
the failure time was recorded), identical whether its 200 probe completed
at time 7 or at time 8 (nothing about the success time was recorded), and
after a 200 probe the state is exactly the old record with health 1 —
there is no further field in which a time could live. -/
theorem healthCheck_records_no_times_counterexample :
    probeUpdateBackend 7 ⟨"http://a", "a", "80", 1⟩ .transportError =
      probeUpdateBackend 8 ⟨"http://a", "a", "80", 1⟩ .transportError ∧
    probeUpdateBackend 7 ⟨"http://a", "a", "80", 0⟩ (.response 200) =
      probeUpdateBackend 8 ⟨"http://a", "a", "80", 0⟩ (.response 200) ∧
    probeUpdateBackend 7 ⟨"http://a", "a", "80", 0⟩ (.response 200) =
      ⟨"http://a", "a", "80", 1⟩ ∧
    probeUpdateBackend 7 ⟨"http://a", "a", "80", 1⟩ .transportError =
      ⟨"http://a", "a", "80", 0⟩ :=
  ⟨rfl, rfl, rfl, rfl⟩

/-- C6 amended: for every backend whose probe completes in a cycle, the
stored health flag equals whether the probe's HTTP status was 200: a 200
response stores 1, and any other status code, transport error, or
request-creation failure stores 0 (the flag only ever takes the values 0
and 1); no success or failure time is recorded — the probe writes only the
health flag, leaving every other field of the record unchanged and
independent of the probe's completion time. -/
theorem healthCheck_health_eq_status200 (outcomes : List ProbeOutcome)
    (healths : List Int) (i : Nat) (o : ProbeOutcome)
    (ho : outcomes.get? i = some o) (hi : i < healths.length) :
    (healthCheckCycle outcomes healths).get? i = some (probeResultHealth o) ∧
    (probeResultHealth o = 1 ↔ o = .response 200) ∧
    (probeResultHealth o = 0 ∨ probeResultHealth o = 1) ∧
    (∀ now now' b, probeUpdateBackend now b o = probeUpdateBackend now' b o ∧
      probeUpdateBackend now b o = ⟨b.url, b.host, b.port, probeResultHealth o⟩) := by
  refine ⟨healthCheckCycle_get? _ _ _ _ ho hi, ?_, ?_, fun now now' b => ⟨rfl, rfl⟩⟩
  · cases o with
    | reqCreateError => simp [probeResultHealth]
    | transportError => simp [probeResultHealth]
    | response code =>
      simp only [probeResultHealth]
      by_cases h : code = 200 <;> simp [h]
  · cases o with
    | reqCreateError => exact Or.inl rfl
    | transportError => exact Or.inl rfl
    | response code =>
      simp only [probeResultHealth]
      by_cases h : code = 200 <;> simp [h]

/-- Witness for C6: in a cycle over three backends whose probes return
200, 500 and a transport error, backend 1 (status 500) ends with health 0. -/
theorem healthCheck_health_eq_status200_witness :
    (healthCheckCycle [.response 200, .response 500, .transportError]
        [0, 0, 1]).get? 1 = some (probeResultHealth (.response 500)) ∧
    (probeResultHealth (.response 500) = 1 ↔
        ProbeOutcome.response 500 = .response 200) :=
  ⟨(healthCheck_health_eq_status200 [.response 200, .response 500, .transportError]
      [0, 0, 1] 1 (.response 500) rfl (by decide)).1,
   (healthCheck_health_eq_status200 [.response 200, .response 500, .transportError]
      [0, 0, 1] 1 (.response 500) rfl (by decide)).2.1⟩

/-- C3 counterexample: the claim's backoff policy says a backend whose last
failure is more recent than `failureWindow` (30 s) is skipped by the next
cycle with its status left unchanged.  In the code the next cycle runs
`defaultInterval` (3) seconds after the failing one — well inside the
window — yet the backend is probed and its status overwritten: after a
failing probe (health 0), a cycle whose probe returns 200 stores 1, not the
unchanged 0 the claim requires. -/
theorem healthCheck_no_backoff_counterexample :
    defaultInterval < failureWindow ∧
    healthCheckCycle [.transportError] [1] = [0] ∧
    healthCheckCycle [.response 200] (healthCheckCycle [.transportError] [1]) = [1] ∧
    healthCheckCycle [.response 200] (healthCheckCycle [.transportError] [1]) ≠ [0] :=
  ⟨by decide, rfl, rfl, by decide⟩

/-- C3 amended: the prober has no failure-backoff: every backend is probed
in every cycle regardless of when it last failed — the post-cycle health
vector does not depend on the pre-cycle one at all (no backend is skipped
with its status left unchanged), and each probed backend's new health is
determined by its probe outcome alone. -/
theorem healthCheckCycle_probes_every_backend (outcomes : List ProbeOutcome)
    (healths healths' : List Int) (hlen : healths.length = healths'.length) :
    healthCheckCycle outcomes healths = healthCheckCycle outcomes healths' ∧
    (∀ i o, outcomes.get? i = some o → i < healths.length →
      (healthCheckCycle outcomes healths).get? i = some (probeResultHealth o)) := by
  constructor
  · induction outcomes generalizing healths healths' with
    | nil => simp [healthCheckCycle]
    | cons o os ih =>
      cases healths with
      | nil =>
        cases healths' with
        | nil => rfl
        | cons h' hs' => simp at hlen
      | cons h hs =>
        cases healths' with
        | nil => simp at hlen
        | cons h' hs' =>
          simp only [healthCheckCycle, List.zipWith_cons_cons, List.cons.injEq]
          exact ⟨trivial, ih hs hs' (Nat.succ.inj hlen)⟩
  · intro i o ho hi
    exact healthCheckCycle_get? _ _ _ _ ho hi

/-- Witness for C3's amended claim: the cycle result is the same whether the
backend was previously healthy or unhealthy, and its new health is its probe
outcome's value. -/
theorem healthCheckCycle_probes_every_backend_witness :
    healthCheckCycle [.response 200] [0] = healthCheckCycle [.response 200] [1] ∧
    (healthCheckCycle [.response 200] [0]).get? 0 =
      some (probeResultHealth (.response 200)) :=
  ⟨(healthCheckCycle_probes_every_backend [.response 200] [0] [1] rfl).1,
   (healthCheckCycle_probes_every_backend [.response 200] [0] [1] rfl).2 0
     (.response 200) rfl (by decide)⟩

/-- C4 counterexample: probe rounds can overlap.  The health-check loop
dispatches each round's probe goroutines and sleeps immediately — there is
no join — so the claim "every probe of round `n` finishes no later than
round `n+1`'s dispatch" fails: with the default 3-second interval, a round-0
probe taking 4 seconds (allowed by the 5-second client timeout) is still in
flight when round 1 is dispatched at 3 seconds. -/
theorem proberRounds_overlap_counterexample :
    ¬ (∀ n d, probeFinish defaultInterval n d ≤ cycleStart defaultInterval (n + 1)) :=
  fun h => absurd (h 0 4) (by decide)

/-- C4 amended: the prober sleeps for the interval immediately after
dispatching a round, without waiting for its probes: round `n+1` starts
exactly `interval` seconds after round `n` whatever the probes are doing,
and a round-`n` probe is still in flight at round `n+1`'s dispatch exactly
when its timeout-capped duration exceeds the interval — so rounds overlap
whenever a probe outlasts the interval (possible, since the probe timeout
`httpTimeout = 5` exceeds the default interval of 3 seconds). -/
theorem proberRounds_overlap_iff (interval n d : Nat) :
    cycleStart interval (n + 1) = cycleStart interval n + interval ∧
    (cycleStart interval (n + 1) < probeFinish interval n d ↔
      interval < min d httpTimeout) := by
  constructor
  · simp [cycleStart, Nat.mul_succ]
  · simp only [cycleStart, probeFinish, Nat.mul_succ]
    omega

/-- Witness for C4's amended claim at the code's constants: round 1 starts
3 seconds after round 0, and a 4-second round-0 probe is still in flight
then. -/
theorem proberRounds_overlap_iff_witness :
    cycleStart defaultInterval 1 = cycleStart defaultInterval 0 + defaultInterval ∧
    cycleStart defaultInterval 1 < probeFinish defaultInterval 0 4 :=
  ⟨(proberRounds_overlap_iff defaultInterval 0 4).1,
   (proberRounds_overlap_iff defaultInterval 0 4).2.mpr (by decide)⟩

/-- C5 counterexample: the claim that the prober first resolves the
backend's host through the DNS cache and marks the backend unhealthy on
resolution failure is false: the probe body never consults the DNS answer
(`resolveHostWithTimeout` has no caller in the prober), so with a failing
DNS answer for the host and a 200 probe response the stored health is 1,
not the 0 the claim requires. -/
theorem probeTask_ignores_dns_counterexample :
    probeTask (.error "failed to resolve a") (.response 200) = 1 ∧
    probeTask (.error "failed to resolve a") (.response 200) ≠ 0 :=
  ⟨rfl, by decide⟩

/-- C5 amended: the prober performs no DNS resolution: the probe is issued
directly against the backend's configured URL, the environment's DNS answer
has no influence on the stored health, and the stored health is determined
by the probe outcome alone (request-creation failure, transport error or a
non-200 status store 0; a 200 response stores 1). -/
theorem probeTask_independent_of_dns (d d' : Except String String)
    (o : ProbeOutcome) :
    probeTask d o = probeTask d' o ∧ probeTask d o = probeResultHealth o :=
  ⟨rfl, rfl⟩

/-- C7: when a bearer token is configured, both the health-check probe
request and the proxied request carry `Authorization: Bearer <token>`, the
proxied one overriding any client-supplied value; when no token is
configured, the probe request carries no Authorization header and the
client's Authorization value passes through unmodified. -/
theorem bearer_token_header_behavior (u hp tok : String)
    (clientAuth : Option String) :
    (tok ≠ "" → (buildProbeRequest u hp tok).auth = some ("Bearer " ++ tok) ∧
        directorAuth tok clientAuth = some ("Bearer " ++ tok)) ∧
    (tok = "" → (buildProbeRequest u hp tok).auth = none ∧
        directorAuth tok clientAuth = clientAuth) := by
  constructor
  · intro h
    exact ⟨by simp [buildProbeRequest, h], by simp [directorAuth, h]⟩
  · intro h
    exact ⟨by simp [buildProbeRequest, h], by simp [directorAuth, h]⟩

/-- Witness for C7: with token "tok" both requests carry the bearer header,
the proxied one replacing the client's "Basic xyz"; with no token the probe
request has no Authorization header and "Basic xyz" passes through. -/
theorem bearer_token_header_behavior_witness :
    ((buildProbeRequest "http://a" "/health" "tok").auth =
        some ("Bearer " ++ "tok") ∧
      directorAuth "tok" (some "Basic xyz") = some ("Bearer " ++ "tok")) ∧
    ((buildProbeRequest "http://a" "/health" "").auth = none ∧
      directorAuth "" (some "Basic xyz") = some "Basic xyz") :=
  ⟨(bearer_token_header_behavior "http://a" "/health" "tok" (some "Basic xyz")).1
      (by decide),
   (bearer_token_header_behavior "http://a" "/health" "" (some "Basic xyz")).2 rfl⟩

/-- C8: when the outbound call to the selected backend fails at the
transport level, the handler writes 502 Bad Gateway and stops: exactly the
one selected backend was attempted, and no other backend is tried within
the request. -/
theorem proxyHandler_502_on_transport_failure (cfg : Config) (r : Nat)
    (urlParseOk : Nat → Bool) (clientAuth : Option String) (i : Nat)
    (hsel : getHealthyBackendIdx cfg.backends r = .ok i)
    (hparse : urlParseOk i = true) :
    proxyHandler cfg r urlParseOk false clientAuth =
      (.errorResp 502 "Bad Gateway", [i]) ∧
    (proxyHandler cfg r urlParseOk false clientAuth).2.length = 1 := by
  unfold proxyHandler
  rw [hsel]
  simp [hparse]

/-- A concrete configuration with a single healthy backend. -/
def cfgOneUp : Config :=
  ⟨8080, 3, "/health", "tok", [⟨"http://a", "a", "80", 1⟩], 0, 0, 0, 0, 0⟩

/-- Witness for C8: with one healthy backend whose outbound call fails, the
handler answers 502 having attempted exactly that backend. -/
theorem proxyHandler_502_on_transport_failure_witness :
    proxyHandler cfgOneUp 0 (fun _ => true) false none =
      (.errorResp 502 "Bad Gateway", [0]) :=
  (proxyHandler_502_on_transport_failure cfgOneUp 0 (fun _ => true) none 0
    rfl rfl).1

/-- C10: the handler produces a 500 Internal Server Error directly — a
status outside the spec's enumerated 503/502 — when a backend was selected
but its configured URL fails to parse: it writes 500 and stops without
attempting any backend. -/
theorem proxyHandler_500_on_parse_failure (cfg : Config) (r : Nat)
    (urlParseOk : Nat → Bool) (transportOk : Bool) (clientAuth : Option String)
    (i : Nat) (hsel : getHealthyBackendIdx cfg.backends r = .ok i)
    (hparse : urlParseOk i = false) :
    proxyHandler cfg r urlParseOk transportOk clientAuth =
      (.errorResp 500 "Internal Server Error", []) ∧
    (500 : Nat) ≠ 503 ∧ (500 : Nat) ≠ 502 := by
  refine ⟨?_, by decide, by decide⟩
  unfold proxyHandler
  rw [hsel]
  simp [hparse]

/-- Witness for C10: a healthy backend whose URL fails to parse yields a
direct 500 response with no backend attempted. -/
theorem proxyHandler_500_on_parse_failure_witness :
    proxyHandler cfgOneUp 0 (fun _ => false) true none =
      (.errorResp 500 "Internal Server Error", []) :=
  (proxyHandler_500_on_parse_failure cfgOneUp 0 (fun _ => false) true none 0
    rfl rfl).1

/-- C9 counterexample: "across repeated sequential calls for the same host
at most one network lookup is ever issued" fails when a lookup errors:
a failed lookup caches nothing, so the next call for the same host issues
another lookup.  Two sequential calls for "example.com" whose first lookup
fails and whose second succeeds issue two network lookups. -/
theorem resolve_single_lookup_counterexample :
    resolveSeqLookups [] "example.com" [none, some ["1.2.3.4"]] = 2 ∧
    ¬ resolveSeqLookups [] "example.com" [none, some ["1.2.3.4"]] ≤ 1 :=
  ⟨rfl, by decide⟩

/-- C9 amended: a cache hit returns the cached IP with no network lookup,
and at most one lookup per host ever succeeds: after any call for a host
returns successfully, every later call for that host performs no lookup and
returns the same IP from the unchanged cache (entries never expire).  Only
failed lookups may be repeated across calls. -/
theorem resolve_cached_after_success (c : List (String × String))
    (host ip : String) (l : Option (List String))
    (c' : List (String × String)) (issued : Bool)
    (h : resolveHostWithTimeout c host l = (.ok ip, c', issued)) :
    (∀ l', resolveHostWithTimeout c' host l' = (.ok ip, c', false)) ∧
    (c.lookup host = some ip → resolveHostWithTimeout c host l = (.ok ip, c, false)) := by
  unfold resolveHostWithTimeout at h
  cases hc : c.lookup host with
  | some ip0 =>
    rw [hc] at h
    simp only [Prod.mk.injEq, Except.ok.injEq] at h
    obtain ⟨hip, hcc, hiss⟩ := h
    subst hip hcc
    constructor
    · intro l'
      unfold resolveHostWithTimeout
      rw [hc]
    · intro hsome
      unfold resolveHostWithTimeout
      rw [hc]
  | none =>
    rw [hc] at h
    cases l with
    | none => simp at h
    | some ips =>
      cases ips with
      | nil => simp at h
      | cons ip0 rest =>
        simp only [Prod.mk.injEq, Except.ok.injEq] at h
        obtain ⟨hip, hcc, hiss⟩ := h
        subst hip hcc
        constructor
        · intro l'
          unfold resolveHostWithTimeout
          simp [List.lookup]
        · intro hsome
          exact absurd hsome (by simp)

/-- Witness for C9's amended claim: a first call for "h" on an empty cache
succeeds and stores the first address; a later call for "h" (here with a
lookup oracle that would fail) performs no lookup and returns the cached
IP. -/
theorem resolve_cached_after_success_witness :
    resolveHostWithTimeout [("h", "1.1.1.1")] "h" none =
      (.ok "1.1.1.1", [("h", "1.1.1.1")], false) :=
  (resolve_cached_after_success [] "h" "1.1.1.1" (some ["1.1.1.1"])
    [("h", "1.1.1.1")] true rfl).1 none

end GoProxy
